import Mathlib

set_option maxRecDepth 100000

/-!
Verification of the log-download subsystem of `MPDiagnosticAgent`
(`core/log_downloader.py` together with `core/mavlink_interface.py`).

The embedding below translates the Python source faithfully:

* `LogEntry` mirrors the `LogEntry` class (all five constructor fields).
* `Mav` mirrors the observable state of `MAVLinkInterface` used by the
  downloader (`connected`, `connection_string`, `baudrate`, `timeout`).
* `LD` mirrors a `LogDownloader` instance (`self.mav`, `self._cached_logs`).
* `list_logs` mirrors `LogDownloader.list_logs`: the cache fast path,
  the not-connected early return, the force-refresh disconnect/reconnect
  (which saves `connection_string`/`baudrate` and overwrites the local
  `timeout` variable with `self.mav.timeout`), the LOG_ENTRY collection
  loop with its overall timeout window, the sort by id, and the caching of
  the result.  A `ListTrace` records the observable side effects (beacon
  waits, disconnects, wire requests, and the timeout window the collection
  loop actually ran with).
* `dlLoop` mirrors the chunk loop of `LogDownloader.download_log`
  (lines 277-351).  The environment is a list of "windows": for each
  chunk request the downloader sends, the window holds the messages that
  arrive during that request 15-second await.  The loop matches a
  message only when it is a LOG_DATA with the session `log_id` and the
  current `offset` (line 316), writes `data[:count]` to the file,
  advances `offset` by `count`, resets the retry counter, and treats
  `count < 90` as end of file (line 350).  On a missed window it retries
  up to `max_retries = 3` and then returns `None` - leaving the partial
  file on disk, because the cleanup at lines 359-361 runs only in the
  `except` branch.
* `download_log` mirrors the surrounding method: the not-connected check,
  catalog resolution through the cache (or a `list_logs` run), the
  unknown-id check, and the final file state on disk.
* `pyMaxTime` mirrors the Python `max(logs, key=lambda x: x.time_utc)`
  (first maximal element wins ties); `download_latest_choice` mirrors the
  selection made by `LogDownloader.download_latest`.
* `erase_all_logs` mirrors `LogDownloader.erase_all_logs`.
-/

/-- LogEntry mirrors the Python `LogEntry` class: `id`, `num_logs`,
`last_log_num`, `time_utc`, `size`. -/
structure LogEntry where
  id : Nat
  num_logs : Nat
  last_log_num : Nat
  time_utc : Nat
  size : Nat
deriving DecidableEq, Repr

/-- Observable state of a `MAVLinkInterface`: connection flag and the link
parameters saved/restored by the force-refresh path of `list_logs`. -/
structure Mav where
  connected : Bool
  connection_string : Nat
  baudrate : Nat
  timeout : Nat
deriving DecidableEq, Repr

/-- State of a `LogDownloader` instance: its interface and `_cached_logs`. -/
structure LD where
  mav : Mav
  cachedLogs : Option (List LogEntry)
deriving DecidableEq, Repr

/-- Messages seen by the `list_logs` collection loop: a LOG_ENTRY, a lull
(`recv_match` returning `None` after its 0.5 s timeout), or an unrelated
telemetry message. -/
inductive CMsg where
  | logEntry : LogEntry → CMsg
  | lull : CMsg
  | otherMsg : CMsg
deriving DecidableEq, Repr

/-- Environment for one `list_logs` run: whether the forced reconnect gets a
heartbeat, and the timestamped stream of events the receive loop sees. -/
structure ListEnv where
  reconnectOk : Bool
  arrivals : List (Nat × CMsg)
deriving DecidableEq, Repr

/-- Observable side effects of one `list_logs` call: heartbeat waits,
disconnects, wire requests sent (LOG_REQUEST_LIST and LOG_REQUEST_END), and
the overall timeout window the collection loop ran with (`none` when the
loop was never reached). -/
structure ListTrace where
  beaconWaits : Nat
  disconnects : Nat
  requestsSent : Nat
  collectWindow : Option Nat
deriving DecidableEq, Repr

/-- Return value of `list_logs`: the list, the updated downloader state and
the side-effect trace. -/
structure ListResult where
  logs : List LogEntry
  ld : LD
  trace : ListTrace
deriving DecidableEq, Repr

/-- Collection loop of `list_logs` (lines 159-211).  Events with timestamp
at or past the window are never seen (`while time.time() - start_time <
timeout`).  A LOG_ENTRY is appended; once `len(logs) >= msg.num_logs` the
loop breaks.  A lull breaks the loop only when some logs were already
collected; unrelated messages are skipped. -/
def collectEntries (window : Nat) : List (Nat × CMsg) → List LogEntry → List LogEntry
  | [], logs => logs
  | (t, m) :: rest, logs =>
    if t < window then
      match m with
      | CMsg.logEntry e =>
        let logs2 := logs ++ [e]
        if e.num_logs ≤ logs2.length then logs2 else collectEntries window rest logs2
      | CMsg.lull => if logs.isEmpty then collectEntries window rest logs else logs
      | CMsg.otherMsg => collectEntries window rest logs
    else logs

/-- Stable insertion into a list sorted by ascending `id`, mirroring the
stability of the Python `list.sort(key=lambda x: x.id)`. -/
def insertById (e : LogEntry) : List LogEntry → List LogEntry
  | [] => [e]
  | x :: xs => if e.id ≤ x.id then e :: x :: xs else x :: insertById e xs

/-- Stable sort by ascending `id` (line 223: `logs.sort(key=lambda x: x.id)`). -/
def sortById : List LogEntry → List LogEntry
  | [] => []
  | x :: xs => insertById x (sortById xs)

/-- Result of the force-refresh reconnect preamble (lines 130-146): the
interface in use afterwards, the effective collection timeout (the local
`timeout` variable after line 134 possibly overwrote the argument), counts
of beacon waits and disconnects, and whether a connection is available. -/
structure PreConn where
  mav : Mav
  effTimeout : Nat
  beaconWaits : Nat
  disconnects : Nat
  ok : Bool
deriving DecidableEq, Repr

/-- Reconnect preamble of `list_logs`.  With `force_refresh` the code saves
`connection_string`, `baudrate` and overwrites `timeout` with
`self.mav.timeout`, disconnects, builds a fresh `MAVLinkInterface` with the
same parameters and connects (one heartbeat wait, succeeding iff the
environment delivers a heartbeat).  Without it, nothing happens and the
caller timeout argument stays in force. -/
def refreshStep (ld : LD) (timeout : Nat) (forceRefresh : Bool) (env : ListEnv) : PreConn :=
  if forceRefresh then
    { mav := { connected := env.reconnectOk,
               connection_string := ld.mav.connection_string,
               baudrate := ld.mav.baudrate,
               timeout := ld.mav.timeout },
      effTimeout := ld.mav.timeout,
      beaconWaits := 1, disconnects := 1, ok := env.reconnectOk }
  else
    { mav := ld.mav, effTimeout := timeout, beaconWaits := 0, disconnects := 0, ok := true }

/-- Embedding of `LogDownloader.list_logs` (lines 108-229): cache fast path,
not-connected early return, force-refresh reconnect, collection loop, sort
by id, and caching of the result. -/
def list_logs (ld : LD) (timeout : Nat) (forceRefresh : Bool) (env : ListEnv) : ListResult :=
  if ld.cachedLogs.isSome && !forceRefresh then
    { logs := ld.cachedLogs.getD [], ld := ld,
      trace := { beaconWaits := 0, disconnects := 0, requestsSent := 0, collectWindow := none } }
  else if !ld.mav.connected then
    { logs := [], ld := ld,
      trace := { beaconWaits := 0, disconnects := 0, requestsSent := 0, collectWindow := none } }
  else
    let pre := refreshStep ld timeout forceRefresh env
    if !pre.ok then
      { logs := [], ld := { ld with mav := pre.mav },
        trace := { beaconWaits := pre.beaconWaits, disconnects := pre.disconnects,
                   requestsSent := 0, collectWindow := none } }
    else
      let entries := collectEntries pre.effTimeout env.arrivals []
      let sorted := sortById entries
      { logs := sorted,
        ld := { mav := pre.mav, cachedLogs := some sorted },
        trace := { beaconWaits := pre.beaconWaits, disconnects := pre.disconnects,
                   requestsSent := 2, collectWindow := some pre.effTimeout } }

/-- A LOG_DATA message as seen by the download loop: `msg.id`, `msg.ofs`,
`msg.count` and the raw `msg.data` buffer. -/
structure Chunk where
  id : Nat
  ofs : Nat
  count : Nat
  data : List Nat
deriving DecidableEq, Repr

/-- The bytes `download_log` writes for an accepted chunk:
`data[:data_len]` with `data_len = msg.count` (line 321). -/
def Chunk.payload (c : Chunk) : List Nat :=
  c.data.take c.count

/-- Messages seen by the download loop per-chunk await: a LOG_DATA or an
unrelated message (anything failing the line-316 filter for other reasons). -/
inductive Msg where
  | logData : Chunk → Msg
  | other : Msg
deriving DecidableEq, Repr

/-- Line 316 filter: the message is a LOG_DATA whose `id` equals the session
log id and whose `ofs` equals the session current offset. -/
def matchesB (m : Msg) (logId off : Nat) : Bool :=
  match m with
  | Msg.logData c => c.id == logId && c.ofs == off
  | Msg.other => false

/-- First message in the await window satisfying the line-316 filter: the
inner loop scans messages one by one and breaks on the first match. -/
def findMatch : List Msg → Nat → Nat → Option Chunk
  | [], _, _ => none
  | m :: rest, logId, off =>
    if matchesB m logId off then
      match m with
      | Msg.logData c => some c
      | Msg.other => none
    else findMatch rest logId off

/-- Outcome of the chunk loop: normal completion, or the `return None` at
line 340 after `max_retries` consecutive missed awaits. -/
inductive DlResult where
  | complete : DlResult
  | chunkTimeout : DlResult
deriving DecidableEq, Repr

/-- Mutable state of the chunk loop: the bytes written to the open output
file so far, the session `offset`, and the accepted chunks in order. -/
structure DlState where
  fileContents : List Nat
  offset : Nat
  trace : List Chunk
deriving DecidableEq, Repr

/-- Chunk loop of `download_log` (lines 277-351).  Each element of `ws` is
the window of messages arriving during one chunk request await (15 seconds).
Loop head: `while offset < total_size`.  A window containing a matching
LOG_DATA writes `data[:count]`, advances `offset += count`, resets the retry
counter, and ends the download when `count < 90` (line 350).  A window with
no match increments the retry counter and, at `max_retries = 3`, returns the
timeout outcome with the file state as it stands.  Once the device goes
permanently silent (no windows left) the remaining retries are all misses,
so an unfinished loop ends in the timeout outcome with the state unchanged. -/
def dlLoop (logId total : Nat) : List (List Msg) → Nat → DlState → DlResult × DlState
  | [], _, st =>
    if st.offset < total then (DlResult.chunkTimeout, st) else (DlResult.complete, st)
  | w :: ws, retry, st =>
    if st.offset < total then
      match findMatch w logId st.offset with
      | some c =>
        let st2 : DlState :=
          { fileContents := st.fileContents ++ c.payload,
            offset := st.offset + c.count,
            trace := st.trace ++ [c] }
        if c.count < 90 then (DlResult.complete, st2)
        else dlLoop logId total ws 0 st2
      | none =>
        if 3 ≤ retry + 1 then (DlResult.chunkTimeout, st)
        else dlLoop logId total ws (retry + 1) st
    else (DlResult.complete, st)

/-- Whole-run wrapper: the chunk loop started from offset 0 with an empty
file and a fresh retry counter. -/
def downloadRun (logId total : Nat) (ws : List (List Msg)) : DlResult × DlState :=
  dlLoop logId total ws 0 { fileContents := [], offset := 0, trace := [] }

/-- What `download_log` leaves behind: whether it returned a path (success)
and the output file remaining on disk (`none` when no file exists). -/
structure DownloadResult where
  returnedPath : Bool
  fileOnDisk : Option (List Nat)
deriving DecidableEq, Repr

/-- Embedding of `LogDownloader.download_log` (lines 231-369): not-connected
check (returns `None`, no file created), catalog resolution via the cache or
a `list_logs` run, unknown-id check (returns `None`, no file created, line
254-258), then the chunk loop over the opened output file.  On completion
the path is returned and the file holds the written bytes; on the line-340
retry-exhaustion `return None` the file also remains on disk with the bytes
written so far, because the cleanup (lines 359-361) runs only in the
`except` branch and a plain `return` does not raise. -/
def download_log (ld : LD) (logId : Nat) (ws : List (List Msg)) (env : ListEnv) :
    DownloadResult :=
  if !ld.mav.connected then { returnedPath := false, fileOnDisk := none }
  else
    let logs :=
      match ld.cachedLogs with
      | some l => l
      | none => (list_logs ld 10 false env).logs
    match logs.find? (fun l => l.id == logId) with
    | none => { returnedPath := false, fileOnDisk := none }
    | some target =>
      let r := downloadRun logId target.size ws
      match r.1 with
      | DlResult.complete => { returnedPath := true, fileOnDisk := some r.2.fileContents }
      | DlResult.chunkTimeout => { returnedPath := false, fileOnDisk := some r.2.fileContents }

/-- the Python `max(logs, key=lambda x: x.time_utc)` (line 389): first element
wins ties, empty input is impossible at the call site (guarded by line 384). -/
def pyMaxTime : List LogEntry → Option LogEntry
  | [] => none
  | x :: xs => some (xs.foldl (fun a b => if a.time_utc < b.time_utc then b else a) x)

/-- The log entry `download_latest` selects (lines 371-392): it calls
`list_logs` with `force_refresh` true exactly when the cache is empty and
the default 10-second timeout, returns `None` on an empty list, and
otherwise picks the maximum by `time_utc`. -/
def download_latest_choice (ld : LD) (env : ListEnv) : Option LogEntry :=
  pyMaxTime (list_logs ld 10 ld.cachedLogs.isNone env).logs

/-- Embedding of `LogDownloader.erase_all_logs` (lines 431-463): refuses
without the confirmation flag, refuses when disconnected, otherwise sends
the erase command and reports success. -/
def erase_all_logs (ld : LD) (confirm : Bool) : Bool :=
  if !confirm then false
  else if !ld.mav.connected then false
  else true

/-! ## Concrete scenarios used by the closed theorems and witnesses -/

/-- A 90-byte payload. -/
def pay90 : List Nat := List.replicate 90 1

/-- Downloader connected over a serial-like link, catalog cached with one
log of id 7 and advertised size 180. -/
def ldOneLog : LD :=
  { mav := { connected := true, connection_string := 0, baudrate := 57600, timeout := 30 },
    cachedLogs := some [{ id := 7, num_logs := 1, last_log_num := 7, time_utc := 1000, size := 180 }] }

/-- Device behavior: answers the first chunk request (90 bytes at offset 0),
then stays silent for the next three request windows. -/
def wsFirstThenSilent : List (List Msg) :=
  [[Msg.logData { id := 7, ofs := 0, count := 90, data := pay90 }], [], [], []]

/-- Environment with no reconnect and no incoming messages. -/
def envQuiet : ListEnv := { reconnectOk := true, arrivals := [] }

/-- Disconnected downloader with an empty cache. -/
def ldDisc : LD :=
  { mav := { connected := false, connection_string := 0, baudrate := 57600, timeout := 30 },
    cachedLogs := none }

/-- Connected downloader with an empty cache. -/
def ldConn : LD :=
  { mav := { connected := true, connection_string := 0, baudrate := 57600, timeout := 30 },
    cachedLogs := none }

/-- Disconnected downloader whose cache is still populated from an earlier
connected call. -/
def ldDiscCached : LD :=
  { mav := { connected := false, connection_string := 0, baudrate := 57600, timeout := 30 },
    cachedLogs := some [{ id := 3, num_logs := 1, last_log_num := 3, time_utc := 100, size := 50 }] }

/-- The three catalog entries of the latest-selection test: id 3 at time
100, id 1 at time 500, id 2 at time 200. -/
def entriesLatest : List LogEntry :=
  [{ id := 3, num_logs := 3, last_log_num := 3, time_utc := 100, size := 50 },
   { id := 1, num_logs := 3, last_log_num := 3, time_utc := 500, size := 50 },
   { id := 2, num_logs := 3, last_log_num := 3, time_utc := 200, size := 50 }]

/-- Connected downloader whose cache holds `entriesLatest`. -/
def ldLatest : LD :=
  { mav := { connected := true, connection_string := 0, baudrate := 57600, timeout := 30 },
    cachedLogs := some entriesLatest }

/-- Device emitting ten full 90-byte chunks for log 5 at offsets 0, 90, ...,
810 - the ten expected chunks of a 900-byte log. -/
def devTen : List (List Msg) :=
  (List.range 10).map
    (fun i => [Msg.logData { id := 5, ofs := 90 * i, count := 90, data := List.replicate 90 3 }])

/-- Device emitting a full 90-byte chunk and then a short 50-byte chunk for
log 7, against an advertised size of 180. -/
def wsShortFinal : List (List Msg) :=
  [[Msg.logData { id := 7, ofs := 0, count := 90, data := pay90 }],
   [Msg.logData { id := 7, ofs := 90, count := 50, data := List.replicate 90 2 }]]

/-! ## Claim theorems -/

/-- Claim C1 (code bug): when the device answers the first chunk of log 7
(90 bytes) and then stays silent for the configured 3 consecutive retries,
`download_log` does fail (it returns `None`, no path), but the partially
written output file - the 90 bytes already received - remains on disk: the
line-340 `return None` bypasses the cleanup that only the `except` branch
(lines 359-361) performs, contradicting the spec requirement that no output
file remain. -/
theorem c1_chunk_timeout_leaves_file_on_disk :
    download_log ldOneLog 7 wsFirstThenSilent envQuiet =
      { returnedPath := false, fileOnDisk := some pay90 } ∧
    (download_log ldOneLog 7 wsFirstThenSilent envQuiet).fileOnDisk ≠ none := by
  constructor
  · rfl
  · decide

/-- Claim C2 (counterexample): the source `download_log` has no cancellation
signal at all, so the spec scenario "cancelled after 2 of 10 expected
chunks" cannot occur: over the ten-chunk device the run simply completes
with all 900 bytes in the sink, rather than returning a cancelled error
with zero bytes. -/
theorem c2_no_cancellation_run_completes :
    (downloadRun 5 900 devTen).1 = DlResult.complete ∧
    (downloadRun 5 900 devTen).2.fileContents.length = 900 := by
  constructor <;> decide

/-- Claim C6 (counterexample): with a populated cache but a disconnected
handle, `list_logs(force_refresh=true)` returns the empty list immediately
(line 124-126) and performs no disconnect/reconnect cycle: zero beacon
waits, zero disconnects, contradicting "every call ... performs a full
disconnect/reconnect cycle ... even if the cache was already populated". -/
theorem c6_disconnected_refresh_no_beacon :
    (list_logs ldDiscCached 10 true envQuiet).trace.beaconWaits = 0 ∧
    (list_logs ldDiscCached 10 true envQuiet).trace.disconnects = 0 ∧
    (list_logs ldDiscCached 10 true envQuiet).logs = [] := by
  refine ⟨?_, ?_, ?_⟩ <;> rfl

/-- Claim C7 (counterexample): the line-316 filter checks only `id` and
`ofs`, never `count`, so a matching chunk longer than the requested
`min(90, total_size - offset)` drives `offset` past `total_size`: with
`total_size = 50` a 90-byte chunk at offset 0 is accepted and the session
offset ends at 90 > 50, violating the claimed invariant. -/
theorem c7_offset_can_exceed_total :
    (downloadRun 9 50 [[Msg.logData { id := 9, ofs := 0, count := 90, data := pay90 }]]).2.offset
      = 90 ∧
    ¬ (downloadRun 9 50
        [[Msg.logData { id := 9, ofs := 0, count := 90, data := pay90 }]]).2.offset ≤ 50 := by
  constructor <;> decide

/-- Claim C9 (counterexample): `list_logs` on a disconnected handle returns
`[]` (line 124-126), which is exactly the value a successful collection
over an empty catalog returns - the two outcomes are indistinguishable,
contradicting "does not return the same value as a successful collection
over an empty catalog". -/
theorem c9_disconnected_equals_empty_catalog :
    (list_logs ldDisc 10 false envQuiet).logs = (list_logs ldConn 10 false envQuiet).logs ∧
    (list_logs ldConn 10 false envQuiet).ld.cachedLogs = some [] := by
  constructor <;> rfl

/-! ## Structural lemmas about the chunk loop -/

/-- Offset alignment of an accepted-chunk trace: starting from `o`, each
chunk sits exactly at the current offset and advances it by its own
`count` - the formal statement of "offset increases monotonically by
exactly the length of each acknowledged chunk". -/
def offsetsOkB : Nat → List Chunk → Bool
  | _, [] => true
  | o, c :: cs => (c.ofs == o) && offsetsOkB (o + c.count) cs

/-- A match returned by `findMatch` is a LOG_DATA from the window whose
`id` and `ofs` are exactly the awaited ones. -/
theorem findMatch_spec (logId off : Nat) (c : Chunk) :
    ∀ w : List Msg, findMatch w logId off = some c →
      c.id = logId ∧ c.ofs = off ∧ Msg.logData c ∈ w := by
  intro w
  induction w with
  | nil => intro h; simp [findMatch] at h
  | cons m rest ih =>
    intro h
    by_cases hm : matchesB m logId off = true
    · cases m with
      | logData c2 =>
        simp only [findMatch, if_pos hm] at h
        simp only [Option.some.injEq] at h
        subst h
        simp only [matchesB, Bool.and_eq_true, beq_iff_eq] at hm
        exact ⟨hm.1, hm.2, List.mem_cons_self _ _⟩
      | other => simp [matchesB] at hm
    · simp only [findMatch, if_neg hm] at h
      rcases ih h with ⟨h1, h2, h3⟩
      exact ⟨h1, h2, List.mem_cons_of_mem m h3⟩

/-- Master invariant of the chunk loop: however the device behaves, the run
extends the trace by some list `tl` of accepted chunks such that the bytes
written are exactly the concatenation of their payloads, the offset
advances by exactly the sum of their counts, the chunks are offset-aligned
starting at the initial offset, and every accepted chunk was a LOG_DATA
present in one of the windows. -/
theorem dlLoop_spec (logId total : Nat) :
    ∀ (ws : List (List Msg)) (retry : Nat) (st : DlState),
      ∃ tl : List Chunk,
        (dlLoop logId total ws retry st).2.trace = st.trace ++ tl ∧
        (dlLoop logId total ws retry st).2.fileContents
          = st.fileContents ++ (tl.map Chunk.payload).flatten ∧
        (dlLoop logId total ws retry st).2.offset = st.offset + (tl.map Chunk.count).sum ∧
        offsetsOkB st.offset tl = true ∧
        ∀ c ∈ tl, ∃ w ∈ ws, Msg.logData c ∈ w := by
  intro ws
  induction ws with
  | nil =>
    intro retry st
    have hsnd : (dlLoop logId total [] retry st).2 = st := by
      simp only [dlLoop]
      split <;> rfl
    refine ⟨[], ?_, ?_, ?_, ?_, ?_⟩ <;> simp [hsnd, offsetsOkB]
  | cons w ws ih =>
    intro retry st
    by_cases hlt : st.offset < total
    · cases hfm : findMatch w logId st.offset with
      | none =>
        by_cases hr : 3 ≤ retry + 1
        · have hstep : dlLoop logId total (w :: ws) retry st = (DlResult.chunkTimeout, st) := by
            simp [dlLoop, hlt, hfm, hr]
          refine ⟨[], ?_, ?_, ?_, ?_, ?_⟩ <;> simp [hstep, offsetsOkB]
        · have hstep : dlLoop logId total (w :: ws) retry st
              = dlLoop logId total ws (retry + 1) st := by
            simp [dlLoop, hlt, hfm, hr]
          rcases ih (retry + 1) st with ⟨tl, h1, h2, h3, h4, h5⟩
          refine ⟨tl, ?_, ?_, ?_, ?_, ?_⟩
          · rw [hstep]; exact h1
          · rw [hstep]; exact h2
          · rw [hstep]; exact h3
          · exact h4
          · intro c hc
            rcases h5 c hc with ⟨w2, hw2, hm2⟩
            exact ⟨w2, List.mem_cons_of_mem w hw2, hm2⟩
      | some c =>
        rcases findMatch_spec logId st.offset c w hfm with ⟨hid, hofs, hmem⟩
        by_cases hshort : c.count < 90
        · have hstep : dlLoop logId total (w :: ws) retry st
              = (DlResult.complete,
                 { fileContents := st.fileContents ++ c.payload,
                   offset := st.offset + c.count,
                   trace := st.trace ++ [c] }) := by
            simp [dlLoop, hlt, hfm, hshort]
          refine ⟨[c], ?_, ?_, ?_, ?_, ?_⟩
          · rw [hstep]
          · rw [hstep]; simp
          · rw [hstep]; simp
          · simp [offsetsOkB, hofs]
          · intro c2 hc2
            have hc2c : c2 = c := by simpa using hc2
            subst hc2c
            exact ⟨w, List.mem_cons_self _ _, hmem⟩
        · have hstep : dlLoop logId total (w :: ws) retry st
              = dlLoop logId total ws 0
                  { fileContents := st.fileContents ++ c.payload,
                    offset := st.offset + c.count,
                    trace := st.trace ++ [c] } := by
            simp [dlLoop, hlt, hfm, hshort]
          rcases ih 0 { fileContents := st.fileContents ++ c.payload,
                        offset := st.offset + c.count,
                        trace := st.trace ++ [c] } with ⟨tl, h1, h2, h3, h4, h5⟩
          refine ⟨c :: tl, ?_, ?_, ?_, ?_, ?_⟩
          · rw [hstep, h1]; simp
          · rw [hstep, h2]; simp
          · rw [hstep, h3]
            simp only [List.map_cons, List.sum_cons]
            omega
          · simp only [offsetsOkB, hofs, beq_self_eq_true, Bool.true_and]
            exact h4
          · intro c2 hc2
            rcases List.mem_cons.mp hc2 with hc2 | hc2
            · subst hc2
              exact ⟨w, List.mem_cons_self _ _, hmem⟩
            · rcases h5 c2 hc2 with ⟨w2, hw2, hm2⟩
              exact ⟨w2, List.mem_cons_of_mem w hw2, hm2⟩
    · have hstep : dlLoop logId total (w :: ws) retry st = (DlResult.complete, st) := by
        simp [dlLoop, hlt]
      refine ⟨[], ?_, ?_, ?_, ?_, ?_⟩ <;> simp [hstep, offsetsOkB]

/-- An offset-aligned trace whose chunks all end at or before `total` keeps
the final offset at or before `total`. -/
theorem offsetsOkB_sum_le (total : Nat) :
    ∀ (tl : List Chunk) (o : Nat), offsetsOkB o tl = true → o ≤ total →
      (∀ c ∈ tl, c.ofs + c.count ≤ total) → o + (tl.map Chunk.count).sum ≤ total := by
  intro tl
  induction tl with
  | nil => intro o _ ho _; simpa using ho
  | cons c cs ih =>
    intro o hok ho hb
    simp [offsetsOkB] at hok
    have hc : c.ofs + c.count ≤ total := hb c (by simp)
    have hrec := ih (o + c.count) hok.2 (by omega) (fun c2 hc2 => hb c2 (by simp [hc2]))
    simp only [List.map_cons, List.sum_cons]
    omega

/-- Wellformedness of a wire message for length accounting: a LOG_DATA
carries at least `count` bytes of payload in its `data` buffer (the wire
format is a fixed 90-byte array with `count` valid bytes). -/
def wfCount : Msg → Bool
  | Msg.logData c => decide (c.count ≤ c.data.length)
  | Msg.other => true

/-- Length conformance of a LOG_DATA against the advertised total: the
chunk ends at or before `total` (what a device honoring the requested
length `min(90, total - offset)` always satisfies). -/
def boundOk (total : Nat) : Msg → Bool
  | Msg.logData c => decide (c.ofs + c.count ≤ total)
  | Msg.other => true

/-- Claim C3 (confirmed): for every successful `download_log` run over any
device chunk sequence, the bytes written to the file are exactly the
concatenation of the accepted chunk payloads in offset order (the accepted
trace is offset-aligned from 0), and the file length equals the sum of the
returned chunk counts; moreover the short-final-chunk device shows the
length (140) may differ from the advertised `total_size` (180) on a run
that still completes successfully. -/
theorem c3_roundtrip_fidelity :
    (∀ (logId total : Nat) (ws : List (List Msg)),
      (∀ w ∈ ws, ∀ m ∈ w, wfCount m = true) →
      (downloadRun logId total ws).1 = DlResult.complete →
        (downloadRun logId total ws).2.fileContents
          = (((downloadRun logId total ws).2.trace.map Chunk.payload).flatten) ∧
        (downloadRun logId total ws).2.fileContents.length
          = (((downloadRun logId total ws).2.trace.map Chunk.count).sum) ∧
        offsetsOkB 0 (downloadRun logId total ws).2.trace = true) ∧
    ((downloadRun 7 180 wsShortFinal).1 = DlResult.complete ∧
     (downloadRun 7 180 wsShortFinal).2.fileContents.length = 140 ∧
     (downloadRun 7 180 wsShortFinal).2.fileContents.length ≠ 180) := by
  constructor
  · intro logId total ws hwf _
    obtain ⟨tl, h1, h2, h3, h4, h5⟩ :=
      dlLoop_spec logId total ws 0 { fileContents := [], offset := 0, trace := [] }
    have hT : (downloadRun logId total ws).2.trace = tl := by
      simpa [downloadRun] using h1
    have hF : (downloadRun logId total ws).2.fileContents = (tl.map Chunk.payload).flatten := by
      simpa [downloadRun] using h2
    have hlen : ∀ c ∈ tl, (Chunk.payload c).length = c.count := by
      intro c hc
      rcases h5 c hc with ⟨w, hw, hm⟩
      have hb := hwf w hw _ hm
      simp only [wfCount, decide_eq_true_eq] at hb
      simp [Chunk.payload, List.length_take, Nat.min_eq_left hb]
    refine ⟨by rw [hF, hT], ?_, by rw [hT]; simpa [downloadRun] using h4⟩
    rw [hF, hT]
    rw [List.length_flatten, List.map_map]
    apply congrArg List.sum
    apply List.map_congr_left
    intro c hc
    simpa using hlen c hc
  · refine ⟨by decide, by decide, by decide⟩

/-- Claim C7 (amended, proved): in every `download_log` run the offset
advances by exactly the count of each acknowledged chunk (the accepted
trace is offset-aligned from 0 and the final offset is the sum of the
counts); and provided every LOG_DATA the device emits ends at or before
`total_size` - which holds for any device honoring the requested length
`min(90, total_size - offset)` - the session offset never exceeds
`total_size`. -/
theorem c7_offset_invariant_conformant :
    ∀ (logId total : Nat) (ws : List (List Msg)),
      (∀ w ∈ ws, ∀ m ∈ w, boundOk total m = true) →
        offsetsOkB 0 (downloadRun logId total ws).2.trace = true ∧
        (downloadRun logId total ws).2.offset
          = ((downloadRun logId total ws).2.trace.map Chunk.count).sum ∧
        (downloadRun logId total ws).2.offset ≤ total ∧
        ∀ c ∈ (downloadRun logId total ws).2.trace, c.ofs + c.count ≤ total := by
  intro logId total ws hb
  obtain ⟨tl, h1, h2, h3, h4, h5⟩ :=
    dlLoop_spec logId total ws 0 { fileContents := [], offset := 0, trace := [] }
  have hT : (downloadRun logId total ws).2.trace = tl := by
    simpa [downloadRun] using h1
  have hO : (downloadRun logId total ws).2.offset = (tl.map Chunk.count).sum := by
    simpa [downloadRun] using h3
  have hok : offsetsOkB 0 tl = true := by simpa [downloadRun] using h4
  have hbnd : ∀ c ∈ tl, c.ofs + c.count ≤ total := by
    intro c hc
    rcases h5 c hc with ⟨w, hw, hm⟩
    have := hb w hw _ hm
    simpa [boundOk] using this
  refine ⟨by rw [hT]; exact hok, by rw [hT, hO], ?_, by rw [hT]; exact hbnd⟩
  rw [hO]
  have := offsetsOkB_sum_le total tl 0 hok (Nat.zero_le total) hbnd
  simpa using this

/-- Claim C8 (confirmed): prepending a message that fails the line-316
filter (wrong kind, wrong `log_id`, or wrong `offset` relative to the
session expectation) to the current await window leaves the whole loop
outcome unchanged - nothing is written, the offset does not advance, the
await is not satisfied; and a LOG_DATA matching both fields satisfies the
await immediately. -/
theorem c8_mismatched_chunk_ignored :
    (∀ (logId total retry : Nat) (st : DlState) (m : Msg) (w : List Msg) (ws : List (List Msg)),
      matchesB m logId st.offset = false →
        dlLoop logId total ((m :: w) :: ws) retry st = dlLoop logId total (w :: ws) retry st) ∧
    (∀ (logId off : Nat) (c : Chunk) (w : List Msg),
      c.id = logId → c.ofs = off → findMatch (Msg.logData c :: w) logId off = some c) := by
  constructor
  · intro logId total retry st m w ws hm
    have hfm : findMatch (m :: w) logId st.offset = findMatch w logId st.offset := by
      simp [findMatch, hm]
    simp only [dlLoop, hfm]
  · intro logId off c w h1 h2
    simp [findMatch, matchesB, h1, h2]

/-- Windows of a device that answers every chunk request in full: for each
payload, one window holding a single LOG_DATA with the expected offset and
a count of 90 (the full chunk size). -/
def fullWindows (logId : Nat) : Nat → List (List Nat) → List (List Msg)
  | _, [] => []
  | off, p :: ps =>
    [Msg.logData { id := logId, ofs := off, count := 90, data := p }]
      :: fullWindows logId (off + 90) ps

/-- Against a fully responsive device the chunk loop always runs to
completion from any intermediate state: nothing can stop it early. -/
theorem fullWindows_runs_to_completion (logId : Nat) :
    ∀ (ps : List (List Nat)) (total retry : Nat) (st : DlState),
      total = st.offset + 90 * ps.length →
      (dlLoop logId total (fullWindows logId st.offset ps) retry st).1 = DlResult.complete ∧
      (dlLoop logId total (fullWindows logId st.offset ps) retry st).2.fileContents
        = st.fileContents ++ (ps.map (fun p => p.take 90)).flatten := by
  intro ps
  induction ps with
  | nil =>
    intro total retry st h
    simp only [List.length_nil, Nat.mul_zero, Nat.add_zero] at h
    have hnlt : ¬ st.offset < total := by omega
    constructor <;> simp [fullWindows, dlLoop, hnlt]
  | cons p ps ih =>
    intro total retry st h
    have hlt : st.offset < total := by
      simp only [List.length_cons] at h
      omega
    have hstep : dlLoop logId total (fullWindows logId st.offset (p :: ps)) retry st
        = dlLoop logId total (fullWindows logId (st.offset + 90) ps) 0
            { fileContents := st.fileContents ++ Chunk.payload
                { id := logId, ofs := st.offset, count := 90, data := p },
              offset := st.offset + 90,
              trace := st.trace ++ [{ id := logId, ofs := st.offset, count := 90, data := p }] } := by
      simp [fullWindows, dlLoop, hlt, findMatch, matchesB]
    have hrec := ih total 0
      { fileContents := st.fileContents ++ Chunk.payload
          { id := logId, ofs := st.offset, count := 90, data := p },
        offset := st.offset + 90,
        trace := st.trace ++ [{ id := logId, ofs := st.offset, count := 90, data := p }] }
      (by simp only [List.length_cons] at h ⊢; omega)
    refine ⟨by rw [hstep]; exact hrec.1, ?_⟩
    rw [hstep, hrec.2]
    simp [Chunk.payload, List.append_assoc]

/-- Claim C2 (amended, proved): `download_log` exposes no cancellation
signal and checks none inside its loop; a run cannot be interrupted by the
caller - against a device that answers every chunk request, the download
always runs to completion with every payload written to the sink, and the
only non-success outcome anywhere in the loop is the chunk-timeout `None`,
never a cancelled error. -/
theorem c2_responsive_device_always_completes :
    ∀ (logId : Nat) (payloads : List (List Nat)),
      (downloadRun logId (90 * payloads.length) (fullWindows logId 0 payloads)).1
        = DlResult.complete ∧
      (downloadRun logId (90 * payloads.length) (fullWindows logId 0 payloads)).2.fileContents
        = (payloads.map (fun p => p.take 90)).flatten := by
  intro logId ps
  have h := fullWindows_runs_to_completion logId ps (90 * ps.length) 0
    { fileContents := [], offset := 0, trace := [] } (by simp)
  exact ⟨h.1, by simpa [downloadRun] using h.2⟩

/-- Folding the Python `max` step over a list yields an element of the
initial value and the list, whose `time_utc` dominates the initial value
and every list element. -/
theorem pyFold_spec :
    ∀ (xs : List LogEntry) (a : LogEntry),
      (xs.foldl (fun a b => if a.time_utc < b.time_utc then b else a) a = a ∨
       xs.foldl (fun a b => if a.time_utc < b.time_utc then b else a) a ∈ xs) ∧
      a.time_utc ≤ (xs.foldl (fun a b => if a.time_utc < b.time_utc then b else a) a).time_utc ∧
      ∀ y ∈ xs,
        y.time_utc ≤ (xs.foldl (fun a b => if a.time_utc < b.time_utc then b else a) a).time_utc := by
  intro xs
  induction xs with
  | nil => intro a; exact ⟨Or.inl rfl, Nat.le_refl _, by simp⟩
  | cons x xs ih =>
    intro a
    by_cases hax : a.time_utc < x.time_utc
    · have hstep : (x :: xs).foldl (fun a b => if a.time_utc < b.time_utc then b else a) a
          = xs.foldl (fun a b => if a.time_utc < b.time_utc then b else a) x := by
        simp [List.foldl_cons, hax]
      rcases ih x with ⟨hmem, hinit, hall⟩
      refine ⟨?_, ?_, ?_⟩
      · rw [hstep]
        rcases hmem with hmem | hmem
        · exact Or.inr (by rw [hmem]; exact List.mem_cons_self _ _)
        · exact Or.inr (List.mem_cons_of_mem x hmem)
      · rw [hstep]
        exact Nat.le_trans (Nat.le_of_lt hax) hinit
      · intro y hy
        rw [hstep]
        rcases List.mem_cons.mp hy with hy | hy
        · subst hy; exact hinit
        · exact hall y hy
    · have hstep : (x :: xs).foldl (fun a b => if a.time_utc < b.time_utc then b else a) a
          = xs.foldl (fun a b => if a.time_utc < b.time_utc then b else a) a := by
        simp [List.foldl_cons, hax]
      rcases ih a with ⟨hmem, hinit, hall⟩
      refine ⟨?_, ?_, ?_⟩
      · rw [hstep]
        rcases hmem with hmem | hmem
        · exact Or.inl hmem
        · exact Or.inr (List.mem_cons_of_mem x hmem)
      · rw [hstep]; exact hinit
      · intro y hy
        rw [hstep]
        rcases List.mem_cons.mp hy with hy | hy
        · subst hy; exact Nat.le_trans (Nat.le_of_not_lt hax) hinit
        · exact hall y hy

/-- The entry the Python `max(logs, key=lambda x: x.time_utc)` call returns
belongs to the list and has maximal `time_utc`. -/
theorem pyMaxTime_spec (l : List LogEntry) (e : LogEntry) (h : pyMaxTime l = some e) :
    e ∈ l ∧ ∀ y ∈ l, y.time_utc ≤ e.time_utc := by
  cases l with
  | nil => simp [pyMaxTime] at h
  | cons x xs =>
    simp only [pyMaxTime, Option.some.injEq] at h
    rcases pyFold_spec xs x with ⟨hmem, hinit, hall⟩
    subst h
    constructor
    · rcases hmem with hmem | hmem
      · rw [hmem]; simp
      · exact List.mem_cons_of_mem x hmem
    · intro y hy
      rcases List.mem_cons.mp hy with hy | hy
      · subst hy; exact hinit
      · exact hall y hy

/-- Claim C5 (confirmed): `download_latest` selects the catalog entry with
the maximum `time_utc` - whenever its selection returns an entry, that
entry is in the listed catalog and no listed entry has a larger `time_utc`;
on the concrete catalog with entries (id 3, time 100), (id 1, time 500),
(id 2, time 200) it selects the entry with id 1 (time 500), not the entry
with the maximum id. -/
theorem c5_latest_selects_max_time :
    (∀ (ld : LD) (env : ListEnv) (e : LogEntry),
      download_latest_choice ld env = some e →
        e ∈ (list_logs ld 10 ld.cachedLogs.isNone env).logs ∧
        ∀ y ∈ (list_logs ld 10 ld.cachedLogs.isNone env).logs, y.time_utc ≤ e.time_utc) ∧
    (download_latest_choice ldLatest envQuiet).map LogEntry.id = some 1 ∧
    (download_latest_choice ldLatest envQuiet).map LogEntry.time_utc = some 500 := by
  refine ⟨?_, by decide, by decide⟩
  intro ld env e h
  exact pyMaxTime_spec _ e h

/-- Claim C4 (confirmed): once a `list_logs` call has left the cache
populated with its own result, a consecutive `list_logs` call with
`force_refresh = false` returns the identical, identically ordered list,
leaves the downloader state untouched, and produces no wire traffic at all
(no requests, no beacon wait, no disconnect, no collection loop). -/
theorem c4_cached_list_idempotent (ld : LD) (t : Nat) (frc : Bool) (env : ListEnv)
    (t2 : Nat) (env2 : ListEnv)
    (hpop : (list_logs ld t frc env).ld.cachedLogs = some (list_logs ld t frc env).logs) :
    (list_logs (list_logs ld t frc env).ld t2 false env2).logs = (list_logs ld t frc env).logs ∧
    (list_logs (list_logs ld t frc env).ld t2 false env2).ld = (list_logs ld t frc env).ld ∧
    (list_logs (list_logs ld t frc env).ld t2 false env2).trace
      = { beaconWaits := 0, disconnects := 0, requestsSent := 0, collectWindow := none } := by
  refine ⟨?_, ?_, ?_⟩ <;>
    rw [list_logs] <;>
    simp [hpop]

/-- Claim C6 (amended, proved): every `list_logs(force_refresh=true)` call
on a connected handle - even with a populated cache - performs exactly one
disconnect and exactly one new beacon wait, and the interface afterwards
carries the same link parameters (connection string, baudrate, timeout). -/
theorem c6_connected_refresh_reconnects (ld : LD) (t : Nat) (env : ListEnv)
    (hc : ld.mav.connected = true) :
    (list_logs ld t true env).trace.beaconWaits = 1 ∧
    (list_logs ld t true env).trace.disconnects = 1 ∧
    (list_logs ld t true env).ld.mav.connection_string = ld.mav.connection_string ∧
    (list_logs ld t true env).ld.mav.baudrate = ld.mav.baudrate ∧
    (list_logs ld t true env).ld.mav.timeout = ld.mav.timeout := by
  cases hok : env.reconnectOk <;>
    refine ⟨?_, ?_, ?_, ?_, ?_⟩ <;>
      simp [list_logs, refreshStep, hc, hok]

/-- Claim C9 (amended, proved): while disconnected, `download_log` returns
`None` with no file created and `erase_all_logs` returns `False` - each
distinguishable from any successful result - but `list_logs` with an empty
cache returns the empty list, the very value a successful collection over
an empty catalog also returns. -/
theorem c9_disconnected_results (ld : LD) (logId t : Nat) (ws : List (List Msg))
    (env env2 : ListEnv) (hc : ld.mav.connected = false) :
    download_log ld logId ws env = { returnedPath := false, fileOnDisk := none } ∧
    erase_all_logs ld true = false ∧
    (ld.cachedLogs = none → (list_logs ld t false env2).logs = []) := by
  refine ⟨?_, ?_, ?_⟩
  · simp [download_log, hc]
  · simp [erase_all_logs, hc]
  · intro hcache
    simp [list_logs, hc, hcache]

/-- Claim C10 (confirmed): on a connected handle, `list_logs` with
`force_refresh = true` runs its collection loop with the connect timeout of
the handle, not the timeout argument - line 134 overwrites the local
`timeout` variable before the loop at line 166 - so the whole call result
is independent of the timeout argument. -/
theorem c10_refresh_uses_handle_timeout (ld : LD) (t : Nat) (env : ListEnv)
    (hc : ld.mav.connected = true) (hr : env.reconnectOk = true) :
    (list_logs ld t true env).trace.collectWindow = some ld.mav.timeout ∧
    ∀ t2 : Nat, list_logs ld t2 true env = list_logs ld t true env := by
  constructor
  · simp [list_logs, refreshStep, hc, hr]
  · intro t2
    simp [list_logs, refreshStep, hc, hr]

/-! ## Witnesses: the claim theorems applied at concrete inputs -/

/-- Catalog entry used by the cache-population witness. -/
def entryOne : LogEntry :=
  { id := 4, num_logs := 1, last_log_num := 4, time_utc := 42, size := 90 }

/-- Environment delivering exactly one LOG_ENTRY at time 0. -/
def envOneEntry : ListEnv :=
  { reconnectOk := true, arrivals := [(0, CMsg.logEntry entryOne)] }

/-- Witness for C3 at the short-final-chunk device. -/
theorem c3_roundtrip_fidelity_witness :
    (downloadRun 7 180 wsShortFinal).2.fileContents
      = (((downloadRun 7 180 wsShortFinal).2.trace.map Chunk.payload).flatten) :=
  (c3_roundtrip_fidelity.1 7 180 wsShortFinal (by decide) (by decide)).1

/-- Witness for C4: a collection run populates the cache and the next call
returns the same list. -/
theorem c4_cached_list_idempotent_witness :
    (list_logs (list_logs ldConn 10 false envOneEntry).ld 5 false envQuiet).logs
      = (list_logs ldConn 10 false envOneEntry).logs :=
  (c4_cached_list_idempotent ldConn 10 false envOneEntry 5 envQuiet (by rfl)).1

/-- Witness for C5: on the concrete catalog the id-3 entry at time 100 is
dominated by the selected id-1 entry at time 500. -/
theorem c5_latest_selects_max_time_witness :
    ({ id := 3, num_logs := 3, last_log_num := 3, time_utc := 100, size := 50 } : LogEntry).time_utc
      ≤ ({ id := 1, num_logs := 3, last_log_num := 3, time_utc := 500, size := 50 } : LogEntry).time_utc :=
  (c5_latest_selects_max_time.1 ldLatest envQuiet
      { id := 1, num_logs := 3, last_log_num := 3, time_utc := 500, size := 50 } (by decide)).2
    { id := 3, num_logs := 3, last_log_num := 3, time_utc := 100, size := 50 } (by decide)

/-- Witness for C6 at a connected handle with a populated cache. -/
theorem c6_connected_refresh_reconnects_witness :
    (list_logs ldLatest 10 true envQuiet).trace.beaconWaits = 1 :=
  (c6_connected_refresh_reconnects ldLatest 10 envQuiet (by rfl)).1

/-- Witness for C7 at the short-final-chunk device, whose chunks all end at
or before the advertised 180 bytes. -/
theorem c7_offset_invariant_conformant_witness :
    (downloadRun 7 180 wsShortFinal).2.offset ≤ 180 :=
  (c7_offset_invariant_conformant 7 180 wsShortFinal (by decide)).2.2.1

/-- Witness for C8: an unrelated message prepended to the await window
changes nothing, and a matching LOG_DATA satisfies the await. -/
theorem c8_mismatched_chunk_ignored_witness :
    dlLoop 1 90 [[Msg.other]] 0 { fileContents := [], offset := 0, trace := [] }
      = dlLoop 1 90 [[]] 0 { fileContents := [], offset := 0, trace := [] } ∧
    findMatch [Msg.logData { id := 1, ofs := 0, count := 90, data := pay90 }] 1 0
      = some { id := 1, ofs := 0, count := 90, data := pay90 } :=
  ⟨c8_mismatched_chunk_ignored.1 1 90 0 { fileContents := [], offset := 0, trace := [] }
      Msg.other [] [] (by decide),
   c8_mismatched_chunk_ignored.2 1 0 { id := 1, ofs := 0, count := 90, data := pay90 } [] rfl rfl⟩

/-- Witness for C9 at a disconnected downloader. -/
theorem c9_disconnected_results_witness :
    download_log ldDisc 3 [] envQuiet = { returnedPath := false, fileOnDisk := none } ∧
    erase_all_logs ldDisc true = false :=
  ⟨(c9_disconnected_results ldDisc 3 10 [] envQuiet envQuiet (by rfl)).1,
   (c9_disconnected_results ldDisc 3 10 [] envQuiet envQuiet (by rfl)).2.1⟩

/-- Witness for C10: with the handle connect timeout at 30 seconds and a
caller argument of 99 seconds, the collection window is 30. -/
theorem c10_refresh_uses_handle_timeout_witness :
    (list_logs ldConn 99 true envOneEntry).trace.collectWindow = some 30 :=
  (c10_refresh_uses_handle_timeout ldConn 99 envOneEntry (by rfl) (by rfl)).1
